import Mathlib

/-!
Verification of the realtime voice gateway of this repository.

The development shallowly embeds, at the byte level, the Doubao realtime
binary protocol codec and client state machine
(`src/services/voice/doubao_realtime.py`), the streaming TTS segmentation
(`src/services/voice/tts_service.py`), the websocket gateway connection
establishment and message loop (`server/routers/voice_router.py`), and the
interrupt handler (`src/services/voice/interrupt_handler.py`).

Modelling conventions:
* Python `bytes` are `List Nat` (each entry a byte value); `struct.pack(">I", n)`
  is `u32be n`, `struct.unpack(">I", data[o:o+4])[0]` is `readU32at data o`.
* UTF-8 strings that are only encoded/decoded (session ids) are kept as their
  byte lists; `str.encode`/`bytes.decode` are the identity on them.
* JSON payloads are kept as their serialized byte lists: the builders receive
  the `json.dumps` output (never empty, at least the two bytes of `b"{}"`),
  and in the parser the field `payload` holds the byte slice to which the
  source applies `json.loads` (which succeeds on every `json.dumps` output,
  falling back to `payload_raw` only for invalid JSON, a case no theorem
  below depends on).
* `asyncio` effects are made explicit: transport operations are oracles
  (`TransportStep`, `RecvOutcome`) supplied as arguments, and a coroutine
  that can raise returns a `CallResult`.
-/

namespace YuxiVoice

/-- Big-endian 4-byte encoding of a 32-bit value, as produced by
`struct.pack(">I", n)` in `doubao_realtime.py` (defined for every `Nat`;
the source raises for `n ≥ 2^32`, so theorems carry that bound). -/
def u32be (n : Nat) : List Nat :=
  [n / 16777216 % 256, n / 65536 % 256, n / 256 % 256, n % 256]

/-- Big-endian value of the first four entries of a byte list. -/
def beval4 (l : List Nat) : Nat :=
  l.getD 0 0 * 16777216 + l.getD 1 0 * 65536 + l.getD 2 0 * 256 + l.getD 3 0

/-- `struct.unpack(">I", data[k:k+4])[0]`: big-endian read of the 4-byte slice
starting at offset `k`. -/
def readU32at (data : List Nat) (k : Nat) : Nat :=
  beval4 ((data.drop k).take 4)

/-- `DoubaoRealtimeClient._build_header`: the fixed 4-byte header
`[0b0001_0001, msg_type<<4 | msg_flags, serialization<<4 | compression, 0]`. -/
def build_header (msg_type msg_flags serialization compression : Nat) : List Nat :=
  [17, Nat.lor (msg_type * 16) msg_flags, Nat.lor (serialization * 16) compression, 0]

/-- The session-id portion of an event frame in
`DoubaoRealtimeClient._build_event_frame`: a length-prefixed id when the
(Python-truthy) session id is present, a zero length word otherwise. -/
def session_part : Option (List Nat) → List Nat
  | some s => if s.length = 0 then u32be 0 else u32be s.length ++ s
  | none => u32be 0

/-- `DoubaoRealtimeClient._build_event_frame`: header (msg type 1 =
FULL_CLIENT_REQUEST, flags 0b0100, JSON serialization), 4-byte event id,
then — except for the connection-scoped events 1 (START_CONNECTION) and
2 (FINISH_CONNECTION) — the session-id section, then the length-prefixed
payload.  `payload_bytes` is the `json.dumps` output (or `b"{}"`, bytes
123,125, when the payload argument is falsy). -/
def build_event_frame (event_id : Nat) (payload_bytes : List Nat)
    (session_id : Option (List Nat)) : List Nat :=
  build_header 1 4 1 0 ++ u32be event_id ++
    (if event_id = 1 ∨ event_id = 2 then [] else session_part session_id) ++
    u32be payload_bytes.length ++ payload_bytes

/-- `DoubaoRealtimeClient._build_audio_frame`: header (msg type 2 =
AUDIO_ONLY_REQUEST, flags 0b0100, raw serialization), event id 200
(TASK_REQUEST), length-prefixed session id, length-prefixed audio payload. -/
def build_audio_frame (audio_data : List Nat) (session_id : List Nat) : List Nat :=
  build_header 2 4 0 0 ++ u32be 200 ++ u32be session_id.length ++ session_id ++
    u32be audio_data.length ++ audio_data

/-- The dictionary `DoubaoRealtimeClient._parse_response` returns, one
optional field per key the source may set.  `session_id` and `payload`
hold byte slices (see the module comment on UTF-8 and JSON). -/
structure ParseResult where
  error : Option String := none
  msg_type : Option Nat := none
  msg_flags : Option Nat := none
  event_id : Option Nat := none
  session_id : Option (List Nat) := none
  payload : Option (List Nat) := none
  payload_raw : Option (List Nat) := none
  audio_data : Option (List Nat) := none
  deriving Repr, DecidableEq

/-- The payload section of `_parse_response`, starting at offset `off3`
(the value of the source's `offset` after the session-id section).
A length check that fails returns the result accumulated so far, without
an error marker. -/
def parse_payload (r : ParseResult) (data : List Nat) (off3 msg_type serialization : Nat) :
    ParseResult :=
  if off3 + 4 > data.length then r
  else
    let payload_size := readU32at data off3
    if payload_size > 0 ∧ off3 + 4 + payload_size ≤ data.length then
      let pd := (data.drop (off3 + 4)).take payload_size
      if msg_type = 11 then { r with audio_data := some pd }
      else if serialization = 1 then { r with payload := some pd }
      else { r with payload_raw := some pd }
    else r

/-- The part of `_parse_response` after the header and optional event id:
session-id section then payload section, starting at offset `off`.
Mirrors the source exactly: a length check that fails returns the result
accumulated so far (without an error marker); a session-id size that does
not fit leaves the offset unadvanced and falls through to the payload
section. -/
def parse_tail (r : ParseResult) (data : List Nat) (off msg_type serialization : Nat) :
    ParseResult :=
  if off + 4 > data.length then r
  else
    let session_id_size := readU32at data off
    if session_id_size > 0 ∧ off + 4 + session_id_size ≤ data.length then
      parse_payload { r with session_id := some ((data.drop (off + 4)).take session_id_size) }
        data (off + 4 + session_id_size) msg_type serialization
    else
      parse_payload r data (off + 4) msg_type serialization

/-- `DoubaoRealtimeClient._parse_response`.  The outer `try` of the source
cannot fire on byte input (every read is length-guarded and the inner decode
failures are caught locally), so the embedding is the guarded straight-line
parse. -/
def parse_response (data : List Nat) : ParseResult :=
  if data.length < 4 then { error := some "数据太短" }
  else
    let byte1 := data.getD 1 0
    let msg_type := byte1 / 16 % 16
    let msg_flags := byte1 % 16
    let byte2 := data.getD 2 0
    let serialization := byte2 / 16 % 16
    let base : ParseResult := { msg_type := some msg_type, msg_flags := some msg_flags }
    if Nat.land msg_flags 4 ≠ 0 then
      if 4 + 4 > data.length then { error := some "无法解析 event ID" }
      else
        parse_tail { base with event_id := some (readU32at data 4) } data 8 msg_type serialization
    else
      parse_tail base data 4 msg_type serialization

lemma length_u32be (n : Nat) : (u32be n).length = 4 := rfl

lemma beval4_u32be (n : Nat) (h : n < 4294967296) : beval4 (u32be n) = n := by
  simp only [u32be, beval4, List.getD]
  simp only [List.get?, Option.getD_some]
  omega

lemma readU32at_of_drop {data : List Nat} {k n : Nat} {rest : List Nat}
    (hd : data.drop k = u32be n ++ rest) (hn : n < 4294967296) :
    readU32at data k = n := by
  rw [readU32at, hd, List.take_append_of_le_length (by rw [length_u32be]),
    List.take_of_length_le (by rw [length_u32be]), beval4_u32be n hn]

/-- Parsing a payload section laid out as the builders lay it out: a
length-prefixed payload filling the rest of the input. -/
lemma parse_payload_round (r : ParseResult) (data p : List Nat) (off3 mt ser : Nat)
    (hdrop : data.drop off3 = u32be p.length ++ p)
    (hlen : data.length = off3 + 4 + p.length)
    (hp : p.length < 4294967296) :
    parse_payload r data off3 mt ser =
      (if p.length = 0 then r
      else if mt = 11 then { r with audio_data := some p }
      else if ser = 1 then { r with payload := some p }
      else { r with payload_raw := some p }) := by
  have hpay : readU32at data off3 = p.length := readU32at_of_drop hdrop hp
  have h4 : (data.drop (off3 + 4)).take p.length = p := by
    have h5 : (data.drop off3).drop 4 = p := by
      rw [hdrop]
      exact List.drop_left' (length_u32be p.length)
    rw [List.drop_drop] at h5
    have he : data.drop (off3 + 4) = p := by
      simpa [Nat.add_comm] using h5
    rw [he, List.take_length]
  rw [parse_payload, if_neg (by omega)]
  simp only [hpay]
  by_cases hp0 : p.length = 0
  · rw [if_neg (by omega), if_pos hp0]
  · rw [if_pos ⟨Nat.pos_of_ne_zero hp0, by omega⟩, if_neg hp0]
    simp only [h4]

/-- Parsing the session-id and payload sections of a frame laid out as the
builders lay them out: a length-prefixed session id (possibly of length 0)
followed by a length-prefixed payload, starting right at `pre.length`. -/
lemma parse_tail_round (r : ParseResult) (pre s p data : List Nat) (mt ser : Nat)
    (hD : data = pre ++ u32be s.length ++ s ++ u32be p.length ++ p)
    (hs : s.length < 4294967296) (hp : p.length < 4294967296) :
    parse_tail r data pre.length mt ser =
      (let r2 : ParseResult := if s.length = 0 then r else { r with session_id := some s }
      if p.length = 0 then r2
      else if mt = 11 then { r2 with audio_data := some p }
      else if ser = 1 then { r2 with payload := some p }
      else { r2 with payload_raw := some p }) := by
  have hlen : data.length = pre.length + 8 + s.length + p.length := by
    simp [hD, length_u32be]; omega
  have h1 : data.drop pre.length = u32be s.length ++ (s ++ (u32be p.length ++ p)) := by
    rw [hD]; simp only [List.append_assoc]; exact List.drop_left' rfl
  have hsess : readU32at data pre.length = s.length := readU32at_of_drop h1 hs
  have h2 : data.drop (pre.length + 4) = s ++ (u32be p.length ++ p) := by
    have he : data = (pre ++ u32be s.length) ++ (s ++ (u32be p.length ++ p)) := by
      rw [hD]; simp [List.append_assoc]
    rw [he, List.drop_left' (by simp [length_u32be])]
  have hs_slice : (data.drop (pre.length + 4)).take s.length = s := by
    rw [h2, List.take_left' rfl]
  have h3 : data.drop (pre.length + 4 + s.length) = u32be p.length ++ p := by
    have he : data = ((pre ++ u32be s.length) ++ s) ++ (u32be p.length ++ p) := by
      rw [hD]; simp [List.append_assoc]
    rw [he, List.drop_left' (by simp [length_u32be]; omega)]
  by_cases hs0 : s.length = 0
  · have hsnil : s = [] := List.length_eq_zero.mp hs0
    subst hsnil
    rw [parse_tail, if_neg (by omega)]
    simp only [hsess, List.length_nil]
    rw [if_neg (by omega)]
    have hd0 : data.drop (pre.length + 4) = u32be p.length ++ p := by
      have := h3; simpa using this
    rw [parse_payload_round r data p (pre.length + 4) mt ser hd0 (by omega) hp]
    simp
  · rw [parse_tail, if_neg (by omega)]
    simp only [hsess]
    rw [if_pos ⟨Nat.pos_of_ne_zero hs0, by omega⟩, hs_slice,
      parse_payload_round _ data p (pre.length + 4 + s.length) mt ser h3 (by omega) hp]
    simp [hs0]

/-- Parsing the header and event id of a frame whose flag nibble has the
event bit set: the four header bytes are consumed, the event id is read at
offset 4, and parsing continues at offset 8. -/
lemma parse_response_header (b1 b2 : Nat) (rest : List Nat)
    (hflag : Nat.land (b1 % 16) 4 ≠ 0) (hlen : 4 ≤ rest.length) :
    parse_response (17 :: b1 :: b2 :: 0 :: rest) =
      parse_tail { msg_type := some (b1 / 16 % 16), msg_flags := some (b1 % 16),
                   event_id := some (readU32at (17 :: b1 :: b2 :: 0 :: rest) 4) }
        (17 :: b1 :: b2 :: 0 :: rest) 8 (b1 / 16 % 16) (b2 / 16 % 16) := by
  have hL : (17 :: b1 :: b2 :: 0 :: rest).length = 4 + rest.length := by simp; omega
  have c1 : ¬ ((17 :: b1 :: b2 :: 0 :: rest).length < 4) := by rw [hL]; omega
  have c2 : ¬ (4 + 4 > (17 :: b1 :: b2 :: 0 :: rest).length) := by rw [hL]; omega
  rw [parse_response, if_neg c1]
  simp only [List.getD_cons_succ, List.getD_cons_zero]
  rw [if_pos hflag, if_neg c2]

lemma session_part_eq : ∀ sid, session_part sid = u32be (sid.getD []).length ++ sid.getD []
  | none => by simp [session_part]
  | some s => by
      by_cases h : s.length = 0
      · have hnil : s = [] := List.length_eq_zero.mp h
        subst hnil; simp [session_part]
      · simp [session_part, h, Option.getD]

lemma build_header_event : build_header 1 4 1 0 = [17, 20, 16, 0] := by decide

lemma build_header_audio : build_header 2 4 0 0 = [17, 36, 0, 0] := by decide

/-- Parsing at offset 8 (after header and event id) of a frame whose tail is a
length-prefixed session id followed by a length-prefixed payload. -/
lemma parse_tail_at8 (r : ParseResult) (hd4 ev s p : List Nat) (mt ser : Nat)
    (hhd : hd4.length = 4) (hev : ev.length = 4)
    (hs : s.length < 4294967296) (hp : p.length < 4294967296) :
    parse_tail r (hd4 ++ ev ++ (u32be s.length ++ s) ++ u32be p.length ++ p) 8 mt ser =
      (let r2 : ParseResult := if s.length = 0 then r else { r with session_id := some s }
      if p.length = 0 then r2
      else if mt = 11 then { r2 with audio_data := some p }
      else if ser = 1 then { r2 with payload := some p }
      else { r2 with payload_raw := some p }) := by
  have hpre : (hd4 ++ ev).length = 8 := by simp [hhd, hev]
  have h := parse_tail_round r (hd4 ++ ev) s p
    (hd4 ++ ev ++ (u32be s.length ++ s) ++ u32be p.length ++ p) mt ser
    (by simp [List.append_assoc]) hs hp
  rwa [hpre] at h

/-- Full parse of a frame with an event id and a session-id/payload tail, for
any header bytes whose flag nibble has the event bit set. -/
lemma parse_event_like (b1 b2 e : Nat) (s p : List Nat)
    (hflag : Nat.land (b1 % 16) 4 ≠ 0) (he : e < 4294967296)
    (hs : s.length < 4294967296) (hp : p.length < 4294967296) :
    parse_response ([17, b1, b2, 0] ++ u32be e ++ (u32be s.length ++ s) ++ u32be p.length ++ p) =
      (let base : ParseResult :=
        { msg_type := some (b1 / 16 % 16), msg_flags := some (b1 % 16), event_id := some e }
      let r2 : ParseResult := if s.length = 0 then base else { base with session_id := some s }
      if p.length = 0 then r2
      else if b1 / 16 % 16 = 11 then { r2 with audio_data := some p }
      else if b2 / 16 % 16 = 1 then { r2 with payload := some p }
      else { r2 with payload_raw := some p }) := by
  have hcons : [17, b1, b2, 0] ++ u32be e ++ (u32be s.length ++ s) ++ u32be p.length ++ p
      = 17 :: b1 :: b2 :: 0 :: (u32be e ++ ((u32be s.length ++ s) ++ (u32be p.length ++ p))) := by
    simp [List.append_assoc]
  rw [hcons, parse_response_header b1 b2 _ hflag
    (by simp only [List.length_append, length_u32be]; omega)]
  have hdrop : (17 :: b1 :: b2 :: 0 ::
      (u32be e ++ ((u32be s.length ++ s) ++ (u32be p.length ++ p)))).drop 4
      = u32be e ++ ((u32be s.length ++ s) ++ (u32be p.length ++ p)) := rfl
  rw [readU32at_of_drop hdrop he, ← hcons]
  exact parse_tail_at8 _ [17, b1, b2, 0] (u32be e) s p _ _ rfl (length_u32be e) hs hp

/-- A frame as produced by the two builders of `DoubaoRealtimeClient`: an
event frame (`_build_event_frame`) or an audio frame (`_build_audio_frame`). -/
inductive Frame
  | event (event_id : Nat) (payload_bytes : List Nat) (session_id : Option (List Nat))
  | audio (audio_data : List Nat) (session_id : List Nat)

def encode_frame : Frame → List Nat
  | .event e p s => build_event_frame e p s
  | .audio a s => build_audio_frame a s

/-- Validity of the builder inputs: lengths below 2^32 (`struct.pack(">I", ·)`
raises beyond that) and, for event frames, a non-empty payload (the source
serializes at least `b"{}"`). -/
def Frame.valid : Frame → Prop
  | .event e p s =>
      e < 4294967296 ∧ 0 < p.length ∧ p.length < 4294967296 ∧ (s.getD []).length < 4294967296
  | .audio a s => a.length < 4294967296 ∧ s.length < 4294967296

/-- The frame's event is not connection-scoped (1 = START_CONNECTION,
2 = FINISH_CONNECTION); audio frames carry event 200 and always qualify. -/
def Frame.sessionScoped : Frame → Prop
  | .event e _ _ => e ≠ 1 ∧ e ≠ 2
  | .audio _ _ => True

/-- What decoding an encoded frame recovers: message type, flags and event id
always; the session id exactly when non-empty (an empty or absent one decodes
to an absent field); the payload bytes exactly when non-empty — under the
JSON `payload` key for event frames and under `payload_raw` for audio frames
(the parser's `audio_data` key is reserved for the server audio message
type 11, not the client audio message type 2). -/
def decode_expected : Frame → ParseResult
  | .event e p s =>
      { msg_type := some 1, msg_flags := some 4, event_id := some e,
        session_id := if (s.getD []).length = 0 then none else some (s.getD []),
        payload := some p }
  | .audio a s =>
      { msg_type := some 2, msg_flags := some 4, event_id := some 200,
        session_id := if s.length = 0 then none else some s,
        payload_raw := if a.length = 0 then none else some a }

/-- Claim C1, amended: for every valid builder frame whose event is not
connection-scoped, decoding the encoding recovers the message type, flags,
event id, session id and payload in the sense of `decode_expected`.
Connection-scoped frames do not round-trip (see the counterexample: the
parser, which is written for server frames, reads their payload-length field
as a session-id length). -/
theorem frame_round_trip (f : Frame) (hv : f.valid) (hsc : f.sessionScoped) :
    parse_response (encode_frame f) = decode_expected f := by
  cases f with
  | event e p sid =>
      obtain ⟨he, hp0, hp, hsl⟩ := hv
      obtain ⟨h1, h2⟩ := hsc
      have hno : ¬ (e = 1 ∨ e = 2) := by tauto
      have henc : encode_frame (Frame.event e p sid)
          = [17, 20, 16, 0] ++ u32be e ++ (u32be (sid.getD []).length ++ sid.getD [])
              ++ u32be p.length ++ p := by
        show build_event_frame e p sid = _
        rw [build_event_frame, if_neg hno, session_part_eq, build_header_event]
      rw [henc, parse_event_like 20 16 e (sid.getD []) p (by decide) he hsl hp]
      have hpne : ¬ p.length = 0 := by omega
      by_cases hsv : (sid.getD []).length = 0 <;>
        simp [hsv, hpne, decode_expected]
  | audio a s =>
      obtain ⟨ha, hs⟩ := hv
      have henc : encode_frame (Frame.audio a s)
          = [17, 36, 0, 0] ++ u32be 200 ++ (u32be s.length ++ s) ++ u32be a.length ++ a := by
        show build_audio_frame a s = _
        rw [build_audio_frame, build_header_audio]
        simp [List.append_assoc]
      rw [henc, parse_event_like 36 0 200 s a (by decide) (by norm_num) hs ha]
      by_cases hs0 : s.length = 0 <;> by_cases ha0 : a.length = 0 <;>
        simp [hs0, ha0, decode_expected]

/-- Claim C1, counterexample: the connection-scoped START_CONNECTION frame
(event 1, payload `b"{}"`, no session id) does not round-trip.  The parser
reads the payload-length word as a session-id length, reports the spurious
session id `"{}"` (bytes 123, 125) and loses the payload entirely, so
`decode (encode f)` differs from `f` in both the session-id and the payload
fields. -/
theorem start_connection_no_round_trip :
    parse_response (build_event_frame 1 [123, 125] none) =
      { msg_type := some 1, msg_flags := some 4, event_id := some 1,
        session_id := some [123, 125] } := by decide

/-- Witness for `frame_round_trip` at a concrete session-scoped frame. -/
theorem frame_round_trip_witness :
    parse_response (encode_frame (Frame.event 100 [123, 125] (some [97, 98, 99]))) =
      decode_expected (Frame.event 100 [123, 125] (some [97, 98, 99])) :=
  frame_round_trip (Frame.event 100 [123, 125] (some [97, 98, 99]))
    ⟨by norm_num, by norm_num, by norm_num, by norm_num⟩ ⟨by norm_num, by norm_num⟩

lemma parse_payload_error (r : ParseResult) (data : List Nat) (off3 mt ser : Nat) :
    (parse_payload r data off3 mt ser).error = r.error := by
  simp only [parse_payload]
  split_ifs <;> rfl

lemma parse_tail_error (r : ParseResult) (data : List Nat) (off mt ser : Nat) :
    (parse_tail r data off mt ser).error = r.error := by
  simp only [parse_tail]
  split_ifs <;> simp [parse_payload_error]

/-- Claim C2, amended: the decoder is total (the source's outer `try` cannot
fire on byte input) and returns an explicit error value exactly when the
input is shorter than the 4-byte header, or the flag nibble announces an
event id that the input is too short to hold.  Every longer truncation —
cutting the session-id section or the payload section — returns a partial
result carrying no error marker. -/
theorem parse_error_iff (data : List Nat) :
    (parse_response data).error.isSome ↔
      data.length < 4 ∨ (Nat.land (data.getD 1 0 % 16) 4 ≠ 0 ∧ data.length < 8) := by
  rw [parse_response]
  by_cases h4 : data.length < 4
  · simp [h4]
  · rw [if_neg h4]
    by_cases hf : Nat.land (data.getD 1 0 % 16) 4 ≠ 0
    · rw [if_pos hf]
      by_cases h8 : 4 + 4 > data.length
      · rw [if_pos h8]
        simp only [Option.isSome_some, true_iff]
        right
        exact ⟨hf, by omega⟩
      · rw [if_neg h8, parse_tail_error]
        simp only [Option.isSome_none, Bool.false_eq_true, false_iff]
        intro hcon
        rcases hcon with h | ⟨hA, hB⟩
        · exact h4 h
        · omega
    · rw [if_neg hf, parse_tail_error]
      simp only [Option.isSome_none, Bool.false_eq_true, false_iff]
      intro hcon
      rcases hcon with h | ⟨hA, hB⟩
      · exact h4 h
      · exact hf hA

/-- Claim C2, counterexample: the strict prefix of a valid session-scoped
frame that cuts the input right after the event id (8 of 21 bytes, removing
the whole session-id section) is decoded to a partial result — message type,
flags and event id — with no error marker, not to a decode-error result. -/
theorem truncated_frame_no_error :
    (parse_response ((build_event_frame 100 [123, 125] (some [97, 98, 99])).take 8)).error = none
      ∧ 8 < (build_event_frame 100 [123, 125] (some [97, 98, 99])).length := by decide

/-- Claim C3: frames built for the connection-scoped events 1 and 2 contain
no session-id section at all — the bytes after the event id are immediately
the length-prefixed payload, and the whole frame is exactly 12 bytes plus
the payload — while frames for every other event (and every audio frame)
carry a length-prefixed session id, of length 0 when the id is absent or
empty, between the event id and the payload. -/
theorem session_field_presence (e : Nat) (p : List Nat) (s : Option (List Nat))
    (a sid : List Nat) :
    ((e = 1 ∨ e = 2) →
        build_event_frame e p s = build_header 1 4 1 0 ++ u32be e ++ u32be p.length ++ p ∧
        (build_event_frame e p s).length = 12 + p.length) ∧
    (e ≠ 1 → e ≠ 2 →
        (build_event_frame e p s).drop 8
          = u32be (s.getD []).length ++ (s.getD [] ++ (u32be p.length ++ p))) ∧
    (build_audio_frame a sid).drop 8
      = u32be sid.length ++ (sid ++ (u32be a.length ++ a)) := by
  refine ⟨fun hconn => ?_, fun h1 h2 => ?_, ?_⟩
  · constructor
    · rw [build_event_frame, if_pos hconn]
      simp
    · rw [build_event_frame, if_pos hconn]
      simp [build_header, length_u32be]
      omega
  · have hno : ¬ (e = 1 ∨ e = 2) := by tauto
    have hshape : build_event_frame e p s
        = ([17, 20, 16, 0] ++ u32be e) ++
            (u32be (s.getD []).length ++ (s.getD [] ++ (u32be p.length ++ p))) := by
      rw [build_event_frame, if_neg hno, session_part_eq, build_header_event]
      simp [List.append_assoc]
    rw [hshape, List.drop_left' (by simp [length_u32be])]
  · have hshape : build_audio_frame a sid
        = ([17, 36, 0, 0] ++ u32be 200) ++
            (u32be sid.length ++ (sid ++ (u32be a.length ++ a))) := by
      rw [build_audio_frame, build_header_audio]
      simp [List.append_assoc]
    rw [hshape, List.drop_left' (by simp [length_u32be])]

/-- Witness for `session_field_presence` at concrete frames of both kinds. -/
theorem session_field_presence_witness :
    (build_event_frame 1 [123, 125] none
        = build_header 1 4 1 0 ++ u32be 1 ++ u32be 2 ++ [123, 125]) ∧
    ((build_event_frame 100 [123, 125] (some [97])).drop 8
        = u32be 1 ++ ([97] ++ (u32be 2 ++ [123, 125]))) := by
  constructor
  · exact ((session_field_presence 1 [123, 125] none [] []).1 (Or.inl rfl)).1
  · exact (session_field_presence 100 [123, 125] (some [97]) [] []).2.1
      (by norm_num) (by norm_num)


/-- Outcome of one awaited transport operation: normal completion or a raised
exception. -/
inductive TransportStep (α : Type)
  | ok (a : α)
  | exn
  deriving Repr, DecidableEq

/-- How a modelled coroutine ends: a returned value, or an uncaught exception
propagating to the caller. -/
inductive CallResult (α : Type)
  | ret (a : α)
  | raised
  deriving Repr, DecidableEq

/-- The mutable attributes of `DoubaoRealtimeClient` the claims are about:
`self.ws is not None`, `self._connected`, and `self.session_id` (a UTF-8
byte list). -/
structure DoubaoState where
  ws_open : Bool
  connected : Bool
  session_id : Option (List Nat)
  deriving Repr, DecidableEq

/-- `DoubaoRealtimeClient.is_connected`. -/
def is_connected (st : DoubaoState) : Bool :=
  st.connected && st.ws_open

/-- The transport outcomes one `connect()` call can observe: the channel
open (`websockets.connect`), the StartConnection send, and the first
receive. -/
structure ConnectEnv where
  open_step : TransportStep Unit
  send_step : TransportStep Unit
  recv_step : TransportStep (List Nat)
  deriving Repr, DecidableEq

/-- `DoubaoRealtimeClient.connect`: open the channel, send StartConnection,
await one response and require event 50 (CONNECTION_STARTED).  The whole
body sits in a `try` returning `False` on any exception; `self.ws` is
assigned as soon as the channel opens, and `self._connected` is set only on
the success path. -/
def connect (st : DoubaoState) (env : ConnectEnv) : Bool × DoubaoState :=
  match env.open_step with
  | .exn => (false, st)
  | .ok _ =>
    let st1 : DoubaoState := { st with ws_open := true }
    match env.send_step with
    | .exn => (false, st1)
    | .ok _ =>
      match env.recv_step with
      | .exn => (false, st1)
      | .ok data =>
        if (parse_response data).event_id = some 50 then
          (true, { st1 with connected := true })
        else (false, st1)

/-- The inputs one `start_session()` call consumes: the freshly generated
UUID (as UTF-8 bytes) and the send/receive outcomes. -/
structure StartSessionEnv where
  new_id : List Nat
  send_step : TransportStep Unit
  recv_step : TransportStep (List Nat)
  deriving Repr, DecidableEq

/-- `DoubaoRealtimeClient.start_session`: returns `none` when not connected;
otherwise stores the new UUID in `self.session_id`, sends StartSession and
awaits one response, requiring event 150 (SESSION_STARTED).  Unlike
`connect`, the body has no `try`: an exception from the send or the receive
propagates to the caller (with `session_id` already set). -/
def start_session (st : DoubaoState) (env : StartSessionEnv) :
    CallResult (Option (List Nat)) × DoubaoState :=
  if st.connected = false then (.ret none, st)
  else
    let st1 : DoubaoState := { st with session_id := some env.new_id }
    match env.send_step with
    | .exn => (.raised, st1)
    | .ok _ =>
      match env.recv_step with
      | .exn => (.raised, st1)
      | .ok data =>
        if (parse_response data).event_id = some 150 then (.ret (some env.new_id), st1)
        else (.ret none, st1)

/-- `DoubaoRealtimeClient.send_audio`: a no-op without a session id,
otherwise frames the audio with the current session id and sends it.  The
first component is the frame put on the wire, `none` for the no-op. -/
def send_audio (st : DoubaoState) (audio : List Nat) : Option (List Nat) × DoubaoState :=
  match st.session_id with
  | none => (none, st)
  | some sid => (some (build_audio_frame audio sid), st)

/-- One observed outcome of `await asyncio.wait_for(self.ws.recv(), timeout=10)`
inside the `finish_session` wait loop: a frame delivered within the 10-second
window, a `TimeoutError`, or any other exception. -/
inductive RecvOutcome
  | frame (data : List Nat)
  | timeout
  | exn
  deriving Repr, DecidableEq

/-- Whether the wait loop stops at this outcome: a SESSION_FINISHED (152) or
SESSION_FAILED (153) event, a timeout, or an exception. -/
def outcome_terminal : RecvOutcome → Bool
  | .frame d =>
      decide ((parse_response d).event_id = some 152)
        || decide ((parse_response d).event_id = some 153)
  | .timeout => true
  | .exn => true

inductive FinishResult
  | noSession
  | sentOnly
  | finished
  | failedEvent
  | timedOut
  | errored
  | stillWaiting
  deriving Repr, DecidableEq

/-- How the wait loop classifies the outcome it stops at. -/
def outcome_result : RecvOutcome → FinishResult
  | .frame d =>
      if (parse_response d).event_id = some 152 then .finished
      else if (parse_response d).event_id = some 153 then .failedEvent
      else .stillWaiting
  | .timeout => .timedOut
  | .exn => .errored

/-- The `while True` receive loop of `finish_session` run on a finite prefix
of the inbound outcome stream: each iteration consumes one outcome and the
loop returns at the first terminal one; `stillWaiting` records that the loop
has not returned after consuming the whole prefix. -/
def finish_wait_loop : List RecvOutcome → FinishResult
  | [] => .stillWaiting
  | o :: rest =>
    match o with
    | .timeout => .timedOut
    | .exn => .errored
    | .frame d =>
      if (parse_response d).event_id = some 152 then .finished
      else if (parse_response d).event_id = some 153 then .failedEvent
      else finish_wait_loop rest

/-- `DoubaoRealtimeClient.finish_session`: a no-op without a session id;
otherwise the local session id is cleared first (before anything fallible),
the FinishSession frame is sent (the send sits outside the `try`, so a send
failure propagates), and with `wait_for_confirmation` the receive loop runs,
its timeout and exception exits caught by the surrounding `try`. -/
def finish_session (st : DoubaoState) (wait_for_confirmation : Bool)
    (send_step : TransportStep Unit) (inbound : List RecvOutcome) :
    CallResult FinishResult × DoubaoState :=
  match st.session_id with
  | none => (.ret .noSession, st)
  | some _ =>
    let st1 : DoubaoState := { st with session_id := none }
    match send_step with
    | .exn => (.raised, st1)
    | .ok _ =>
      if wait_for_confirmation then (.ret (finish_wait_loop inbound), st1)
      else (.ret .sentOnly, st1)

/-- The wait loop, run against an infinite inbound stream, returns at some
point: some index holds a terminal outcome.  `finish_wait_loop_stillWaiting`
ties this to the loop model: the loop consumes one outcome per iteration and
is still running after any prefix made of non-terminal outcomes. -/
def FinishLoopHalts (stream : Nat → RecvOutcome) : Prop :=
  ∃ n, outcome_terminal (stream n) = true

lemma finish_wait_loop_stillWaiting (l : List RecvOutcome) :
    finish_wait_loop l = .stillWaiting ↔ ∀ o ∈ l, outcome_terminal o = false := by
  induction l with
  | nil => simp [finish_wait_loop]
  | cons o rest ih =>
    cases o with
    | timeout => simp [finish_wait_loop, outcome_terminal]
    | exn => simp [finish_wait_loop, outcome_terminal]
    | frame d =>
      by_cases h152 : (parse_response d).event_id = some 152
      · simp [finish_wait_loop, outcome_terminal, h152]
      · by_cases h153 : (parse_response d).event_id = some 153
        · simp [finish_wait_loop, outcome_terminal, h152, h153]
        · simp [finish_wait_loop, outcome_terminal, h152, h153, ih]

/-- Claim C5, amended: whenever a session is active, `finish_session` clears
the local session id in every outcome (acknowledgment, failure event,
timeout, exception — the id is cleared before anything fallible runs); with
wait-for-ack the receive loop stops at the first session-finished or
session-failed event, per-receive timeout, or exception; but the total
receiving is not bounded: on any prefix made of non-terminal frames the loop
is still running. -/
theorem finish_session_clears_and_stops (st : DoubaoState) (wait : Bool)
    (send_step : TransportStep Unit) (inbound : List RecvOutcome)
    (h : st.session_id ≠ none) :
    (finish_session st wait send_step inbound).2.session_id = none ∧
    (∀ pre x suf, (∀ y ∈ pre, outcome_terminal y = false) → outcome_terminal x = true →
        finish_wait_loop (pre ++ x :: suf) = outcome_result x) ∧
    (∀ l, (∀ y ∈ l, outcome_terminal y = false) →
        finish_wait_loop l = FinishResult.stillWaiting) := by
  refine ⟨?_, ?_, ?_⟩
  · match hs : st.session_id with
    | none => exact absurd hs h
    | some sid =>
        cases send_step with
        | exn => simp [finish_session, hs]
        | ok a => cases wait <;> simp [finish_session, hs]
  · intro pre x suf hpre hx
    induction pre with
    | nil =>
        cases x with
        | timeout => rfl
        | exn => rfl
        | frame d =>
            by_cases h152 : (parse_response d).event_id = some 152
            · simp [finish_wait_loop, outcome_result, h152]
            · by_cases h153 : (parse_response d).event_id = some 153
              · simp [finish_wait_loop, outcome_result, h152, h153]
              · exfalso
                simp [outcome_terminal, h152, h153] at hx
    | cons y pre ih =>
        have hy : outcome_terminal y = false := hpre y (List.mem_cons_self y pre)
        have hpre2 : ∀ z ∈ pre, outcome_terminal z = false :=
          fun z hz => hpre z (List.mem_cons_of_mem y hz)
        cases y with
        | timeout => simp [outcome_terminal] at hy
        | exn => simp [outcome_terminal] at hy
        | frame d =>
            simp only [outcome_terminal, Bool.or_eq_false_iff, decide_eq_false_iff_not] at hy
            simp [finish_wait_loop, hy.1, hy.2, ih hpre2]
  · intro l hl
    exact (finish_wait_loop_stillWaiting l).mpr hl

/-- A well-formed non-terminal inbound frame: a TTS_RESPONSE (event 352). -/
def tts_noise_frame : List Nat := build_event_frame 352 [123, 125] (some [])

/-- Claim C5, counterexample: an inbound stream that keeps delivering
well-formed non-terminal frames (TTS_RESPONSE events, each arriving within
the 10-second per-receive window, so no `TimeoutError` ever fires) never
lets the wait loop return — it is still waiting after every finite prefix —
so `finish_session` with wait-for-ack does not terminate within any bounded
total time on such a (possibly infinite) stream. -/
theorem finish_wait_unbounded :
    ¬ FinishLoopHalts (fun _ => RecvOutcome.frame tts_noise_frame) ∧
    finish_wait_loop (List.replicate 5 (RecvOutcome.frame tts_noise_frame)) =
      FinishResult.stillWaiting := by
  constructor
  · rintro ⟨n, hn⟩
    change outcome_terminal (RecvOutcome.frame tts_noise_frame) = true at hn
    exact absurd hn (by decide)
  · decide

/-- Witness for `finish_session_clears_and_stops`: a concrete finishing run
that receives a SESSION_FINISHED acknowledgment. -/
theorem finish_session_clears_witness :
    (finish_session ⟨true, true, some [1, 2]⟩ true (.ok ())
        [RecvOutcome.frame (build_event_frame 152 [123, 125] (some []))]).2.session_id = none ∧
    finish_wait_loop [RecvOutcome.frame (build_event_frame 152 [123, 125] (some []))] =
      FinishResult.finished := by
  have h := finish_session_clears_and_stops ⟨true, true, some [1, 2]⟩ true (.ok ())
      [RecvOutcome.frame (build_event_frame 152 [123, 125] (some []))] (by decide)
  refine ⟨h.1, ?_⟩
  have h2 := h.2.1 [] (RecvOutcome.frame (build_event_frame 152 [123, 125] (some []))) []
      (fun y hy => absurd hy (List.not_mem_nil y)) (by decide)
  rw [List.nil_append] at h2
  rw [h2]
  decide

/-- Claim C4, amended: `connect()` reports every transport failure, and a
wrong acknowledgment, as `False`, and a failed call never changes the
connected flag (so a client that was not connected beforehand is still not
connected — unconditionally forcing the flag to false fails for a client
already connected, see the counterexample); `start_session()` returns `none`
when the client is not connected, but a transport failure during its send or
receive propagates as an exception rather than returning a none result. -/
theorem connect_start_session_failures (st : DoubaoState) (cenv : ConnectEnv)
    (senv : StartSessionEnv) :
    ((connect st cenv).1 = false → (connect st cenv).2.connected = st.connected) ∧
    (cenv.open_step = .exn ∨ cenv.send_step = .exn ∨ cenv.recv_step = .exn →
        (connect st cenv).1 = false) ∧
    (st.connected = false → start_session st senv = (.ret none, st)) ∧
    (st.connected = true → senv.send_step = .exn →
        start_session st senv = (.raised, { st with session_id := some senv.new_id })) ∧
    (st.connected = true → senv.send_step = .ok () → senv.recv_step = .exn →
        start_session st senv = (.raised, { st with session_id := some senv.new_id })) := by
  obtain ⟨o, sd, rc⟩ := cenv
  refine ⟨?_, ?_, ?_, ?_, ?_⟩
  · intro hfail
    cases o with
    | exn => rfl
    | ok a =>
        cases sd with
        | exn => rfl
        | ok b =>
            cases rc with
            | exn => rfl
            | ok data =>
                by_cases hid : (parse_response data).event_id = some 50
                · exfalso
                  simp [connect, hid] at hfail
                · simp [connect, hid]
  · intro h
    cases o with
    | exn => rfl
    | ok a =>
        cases sd with
        | exn => rfl
        | ok b =>
            cases rc with
            | exn => rfl
            | ok data =>
                rcases h with h | h | h
                · exact TransportStep.noConfusion h
                · exact TransportStep.noConfusion h
                · exact TransportStep.noConfusion h
  · intro h
    rw [start_session, if_pos h]
  · intro hc hsd
    simp only [start_session, hsd]
    rw [if_neg (by simp [hc])]
  · intro hc hsd hrc
    simp only [start_session, hsd, hrc]
    rw [if_neg (by simp [hc])]

/-- Claim C4, counterexample: a send failure during `start_session` on a
connected client propagates as an exception instead of returning a none
result; and `connect` invoked on a client whose connected flag is already
true returns failure on a channel-open error yet leaves the flag true, so
"failure leaves connected=false" does not hold of the call unconditionally. -/
theorem transport_failure_counterexample :
    (start_session ⟨true, true, none⟩ ⟨[55], .exn, .ok []⟩).1 = CallResult.raised ∧
    (connect ⟨true, true, none⟩ ⟨.exn, .ok (), .ok []⟩).1 = false ∧
    (connect ⟨true, true, none⟩ ⟨.exn, .ok (), .ok []⟩).2.connected = true := by
  decide

/-- Witness for `connect_start_session_failures` at concrete states. -/
theorem connect_start_session_failures_witness :
    (connect ⟨false, false, none⟩ ⟨.exn, .ok (), .ok []⟩).1 = false ∧
    start_session ⟨false, false, none⟩ ⟨[9], .ok (), .ok []⟩ =
      (.ret none, ⟨false, false, none⟩) := by
  have h := connect_start_session_failures ⟨false, false, none⟩ ⟨.exn, .ok (), .ok []⟩
      ⟨[9], .ok (), .ok []⟩
  exact ⟨h.2.1 (Or.inl rfl), h.2.2.1 rfl⟩

/-- Claim C10: when `start_session` is called on a connected client and the
received acknowledgment is not SESSION_STARTED (event 150), the call returns
`none` but leaves `session_id` set to the freshly generated UUID rather than
clearing it; a `send_audio` immediately after is therefore not a no-op — it
emits an audio frame tagged with the failed session's id. -/
theorem start_session_failure_leaves_id (st : DoubaoState) (env : StartSessionEnv)
    (audio d : List Nat)
    (hc : st.connected = true) (hsend : env.send_step = .ok ())
    (hrecv : env.recv_step = .ok d) (hack : (parse_response d).event_id ≠ some 150) :
    start_session st env = (.ret none, { st with session_id := some env.new_id }) ∧
    (send_audio { st with session_id := some env.new_id } audio).1
      = some (build_audio_frame audio env.new_id) := by
  constructor
  · simp only [start_session, hsend, hrecv]
    rw [if_neg (by simp [hc]), if_neg hack]
  · simp [send_audio]

/-- Witness for `start_session_failure_leaves_id`: a concrete failed start
followed by a concrete audio send. -/
theorem start_session_failure_witness :
    start_session ⟨true, true, none⟩ ⟨[55], .ok (), .ok []⟩
        = (.ret none, ⟨true, true, some [55]⟩) ∧
    (send_audio ⟨true, true, some [55]⟩ [7, 8]).1 = some (build_audio_frame [7, 8] [55]) :=
  start_session_failure_leaves_id ⟨true, true, none⟩ ⟨[55], .ok (), .ok []⟩ [7, 8] []
    rfl rfl rfl (by decide)

/-- The fixed delimiter set `sentence_endings` shared by
`EdgeTTSService.synthesize_stream` and `OpenAITTSService.synthesize_stream`. -/
def sentence_ending (c : Char) : Bool :=
  c = '。' || c = '！' || c = '？' || c = '.' || c = '!' || c = '?' || c = '\n'

/-- Python `str.strip()` whitespace, restricted to the ASCII whitespace
characters (the source also strips other Unicode space characters, which no
input in this development contains). -/
def py_space (c : Char) : Bool :=
  c = ' ' || c = '\t' || c = '\n' || c = '\r' || c = '\x0b' || c = '\x0c'

/-- Python `str.strip()`. -/
def py_strip (l : List Char) : List Char :=
  ((l.dropWhile py_space).reverse.dropWhile py_space).reverse

/-- The scan `for i, char in enumerate(text_buffer)` of `synthesize_stream`:
index of the earliest delimiter, `none` when the buffer holds none. -/
def findEnd : List Char → Option Nat
  | [] => none
  | c :: cs => if sentence_ending c then some 0 else (findEnd cs).map (· + 1)

/-- The inner `while True` segmentation loop of `synthesize_stream`, with
explicit fuel (each cut removes at least one character, so the buffer length
is enough fuel).  Returns the synthesis units cut from the buffer — each cut
runs to the earliest delimiter inclusive, is stripped, and is skipped
entirely when whitespace-only (the source's `if sentence:` guard) — together
with the remaining buffer. -/
def drain_go : Nat → List Char → List (List Char) × List Char
  | 0, buf => ([], buf)
  | fuel + 1, buf =>
    match findEnd buf with
    | none => ([], buf)
    | some i =>
      let sentence := py_strip (buf.take (i + 1))
      let p := drain_go fuel (buf.drop (i + 1))
      (if sentence = [] then p.1 else sentence :: p.1, p.2)

/-- The segmentation loop at adequate fuel. -/
def drainBuffer (buf : List Char) : List (List Char) × List Char :=
  drain_go buf.length buf

/-- One `async for chunk in text_chunks` iteration of `synthesize_stream`:
append the chunk to the rolling buffer, then run the cutting loop. -/
def stream_step (acc : List (List Char) × List Char) (chunk : List Char) :
    List (List Char) × List Char :=
  let d := drainBuffer (acc.2 ++ chunk)
  (acc.1 ++ d.1, d.2)

/-- The text units handed to synthesis while the chunk stream is still
running (before the final flush). -/
def mid_stream_units (chunks : List (List Char)) : List (List Char) :=
  (List.foldl stream_step ([], []) chunks).1

/-- The full unit sequence `synthesize_stream` sends to synthesis for a
finite chunk stream: the units cut during the stream, then the final flush
of the stripped remainder when that is non-empty. -/
def synthesize_stream_units (chunks : List (List Char)) : List (List Char) :=
  let s := List.foldl stream_step ([], []) chunks
  s.1 ++ (if py_strip s.2 = [] then [] else [py_strip s.2])

/-- Spec-side definition, in the amended claim's words: segment the whole
concatenated text by repeatedly cutting at the earliest delimiter
(inclusive), stripping each unit and skipping whitespace-only ones; never
cut a buffer holding no delimiter; at the end flush the stripped remainder
if non-empty. -/
def units_go : Nat → List Char → List (List Char)
  | 0, t => if py_strip t = [] then [] else [py_strip t]
  | fuel + 1, t =>
    match findEnd t with
    | none => if py_strip t = [] then [] else [py_strip t]
    | some i =>
      let sentence := py_strip (t.take (i + 1))
      let us := units_go fuel (t.drop (i + 1))
      if sentence = [] then us else sentence :: us

/-- The spec-side segmentation at adequate fuel. -/
def unitsOfText (t : List Char) : List (List Char) :=
  units_go t.length t

lemma findEnd_lt : ∀ {l : List Char} {i : Nat}, findEnd l = some i → i < l.length := by
  intro l
  induction l with
  | nil => intro i h; exact Option.noConfusion h
  | cons c cs ih =>
      intro i h
      by_cases hc : sentence_ending c = true
      · rw [findEnd, if_pos hc] at h
        cases h
        simp
      · rw [findEnd, if_neg hc] at h
        rw [Option.map_eq_some'] at h
        obtain ⟨j, hj, rfl⟩ := h
        have := ih hj
        simp only [List.length_cons]
        omega

lemma findEnd_append_some {a : List Char} {i : Nat} (b : List Char)
    (h : findEnd a = some i) : findEnd (a ++ b) = some i := by
  induction a generalizing i with
  | nil => exact Option.noConfusion h
  | cons c cs ih =>
      by_cases hc : sentence_ending c = true
      · rw [findEnd, if_pos hc] at h
        cases h
        rw [List.cons_append, findEnd, if_pos hc]
      · rw [findEnd, if_neg hc] at h
        rw [Option.map_eq_some'] at h
        obtain ⟨j, hj, rfl⟩ := h
        rw [List.cons_append, findEnd, if_neg hc, ih hj]
        rfl

lemma drain_go_congr : ∀ (f1 f2 : Nat) (buf : List Char),
    buf.length ≤ f1 → buf.length ≤ f2 → drain_go f1 buf = drain_go f2 buf := by
  intro f1
  induction f1 with
  | zero =>
      intro f2 buf h1 h2
      have hb : buf = [] := List.eq_nil_of_length_eq_zero (by omega)
      subst hb
      cases f2 with
      | zero => rfl
      | succ m => rfl
  | succ n ih =>
      intro f2 buf h1 h2
      cases f2 with
      | zero =>
          have hb : buf = [] := List.eq_nil_of_length_eq_zero (by omega)
          subst hb
          rfl
      | succ m =>
          show drain_go (n + 1) buf = drain_go (m + 1) buf
          rw [drain_go, drain_go]
          cases hfe : findEnd buf with
          | none => rfl
          | some i =>
              have hi : i < buf.length := findEnd_lt hfe
              have hlen : (buf.drop (i + 1)).length ≤ n := by
                simp only [List.length_drop]; omega
              have hlen2 : (buf.drop (i + 1)).length ≤ m := by
                simp only [List.length_drop]; omega
              simp only [ih m (buf.drop (i + 1)) hlen hlen2]

lemma drainBuffer_none {buf : List Char} (h : findEnd buf = none) :
    drainBuffer buf = ([], buf) := by
  cases hbuf : buf with
  | nil => rfl
  | cons c cs =>
      subst hbuf
      show drain_go (cs.length + 1) (c :: cs) = _
      rw [drain_go, h]

lemma drainBuffer_some {buf : List Char} {i : Nat} (h : findEnd buf = some i) :
    drainBuffer buf =
      ((if py_strip (buf.take (i + 1)) = []
          then (drainBuffer (buf.drop (i + 1))).1
          else py_strip (buf.take (i + 1)) :: (drainBuffer (buf.drop (i + 1))).1),
        (drainBuffer (buf.drop (i + 1))).2) := by
  have hi : i < buf.length := findEnd_lt h
  cases hbuf : buf with
  | nil => subst hbuf; exact Option.noConfusion h
  | cons c cs =>
      subst hbuf
      have hlen : ((c :: cs).drop (i + 1)).length ≤ cs.length := by
        simp only [List.length_drop, List.length_cons]; omega
      show drain_go (cs.length + 1) (c :: cs) = _
      rw [drain_go, h]
      simp only [drain_go_congr cs.length ((c :: cs).drop (i + 1)).length
        ((c :: cs).drop (i + 1)) hlen (le_refl _)]
      rfl

lemma drain_residual (buf : List Char) : findEnd (drainBuffer buf).2 = none := by
  generalize hn : buf.length = n
  induction n using Nat.strong_induction_on generalizing buf with
  | _ n ih =>
      cases hfe : findEnd buf with
      | none => rw [drainBuffer_none hfe]; exact hfe
      | some i =>
          have hi : i < buf.length := findEnd_lt hfe
          rw [drainBuffer_some hfe]
          show findEnd (drainBuffer (buf.drop (i + 1))).2 = none
          exact ih (buf.drop (i + 1)).length (by simp only [List.length_drop]; omega)
            (buf.drop (i + 1)) rfl

lemma drain_append (a b : List Char) :
    drainBuffer (a ++ b) =
      ((drainBuffer a).1 ++ (drainBuffer ((drainBuffer a).2 ++ b)).1,
        (drainBuffer ((drainBuffer a).2 ++ b)).2) := by
  generalize hn : a.length = n
  induction n using Nat.strong_induction_on generalizing a b with
  | _ n ih =>
      cases hfe : findEnd a with
      | none =>
          rw [drainBuffer_none hfe]
          simp
      | some i =>
          have hia : i < a.length := findEnd_lt hfe
          have hfab : findEnd (a ++ b) = some i := findEnd_append_some b hfe
          have htake : (a ++ b).take (i + 1) = a.take (i + 1) :=
            List.take_append_of_le_length (by omega)
          have hdrop : (a ++ b).drop (i + 1) = a.drop (i + 1) ++ b :=
            List.drop_append_of_le_length (by omega)
          rw [drainBuffer_some hfab, drainBuffer_some hfe, htake, hdrop]
          have ihx := ih (a.drop (i + 1)).length (by simp only [List.length_drop]; omega)
            (a.drop (i + 1)) b rfl
          rw [ihx]
          by_cases hsent : py_strip (a.take (i + 1)) = [] <;> simp [hsent]

lemma foldl_stream_step (chunks : List (List Char)) :
    ∀ (u : List (List Char)) (r : List Char), findEnd r = none →
      List.foldl stream_step (u, r) chunks
        = (u ++ (drainBuffer (r ++ chunks.flatten)).1, (drainBuffer (r ++ chunks.flatten)).2) := by
  induction chunks with
  | nil =>
      intro u r hr
      rw [List.foldl_nil, List.flatten_nil, List.append_nil, drainBuffer_none hr]
      simp
  | cons c cs ih =>
      intro u r hr
      rw [List.foldl_cons]
      have hstep : stream_step (u, r) c
          = (u ++ (drainBuffer (r ++ c)).1, (drainBuffer (r ++ c)).2) := rfl
      rw [hstep, ih _ _ (drain_residual (r ++ c))]
      rw [show r ++ (c :: cs).flatten = (r ++ c) ++ cs.flatten by simp [List.append_assoc]]
      rw [drain_append (r ++ c) cs.flatten]
      simp [List.append_assoc]

lemma units_go_congr : ∀ (f1 f2 : Nat) (t : List Char),
    t.length ≤ f1 → t.length ≤ f2 → units_go f1 t = units_go f2 t := by
  intro f1
  induction f1 with
  | zero =>
      intro f2 t h1 h2
      have ht : t = [] := List.eq_nil_of_length_eq_zero (by omega)
      subst ht
      cases f2 with
      | zero => rfl
      | succ m => rfl
  | succ n ih =>
      intro f2 t h1 h2
      cases f2 with
      | zero =>
          have ht : t = [] := List.eq_nil_of_length_eq_zero (by omega)
          subst ht
          rfl
      | succ m =>
          show units_go (n + 1) t = units_go (m + 1) t
          rw [units_go, units_go]
          cases hfe : findEnd t with
          | none => rfl
          | some i =>
              have hi : i < t.length := findEnd_lt hfe
              have hlen : (t.drop (i + 1)).length ≤ n := by
                simp only [List.length_drop]; omega
              have hlen2 : (t.drop (i + 1)).length ≤ m := by
                simp only [List.length_drop]; omega
              simp only [ih m (t.drop (i + 1)) hlen hlen2]

lemma unitsOfText_none {t : List Char} (h : findEnd t = none) :
    unitsOfText t = if py_strip t = [] then [] else [py_strip t] := by
  cases ht : t with
  | nil => rfl
  | cons c cs =>
      subst ht
      show units_go (cs.length + 1) (c :: cs) = _
      rw [units_go, h]

lemma unitsOfText_some {t : List Char} {i : Nat} (h : findEnd t = some i) :
    unitsOfText t =
      if py_strip (t.take (i + 1)) = [] then unitsOfText (t.drop (i + 1))
      else py_strip (t.take (i + 1)) :: unitsOfText (t.drop (i + 1)) := by
  have hi : i < t.length := findEnd_lt h
  cases ht : t with
  | nil => subst ht; exact Option.noConfusion h
  | cons c cs =>
      subst ht
      have hlen : ((c :: cs).drop (i + 1)).length ≤ cs.length := by
        simp only [List.length_drop, List.length_cons]; omega
      show units_go (cs.length + 1) (c :: cs) = _
      rw [units_go, h]
      simp only [units_go_congr cs.length ((c :: cs).drop (i + 1)).length
        ((c :: cs).drop (i + 1)) hlen (le_refl _)]
      rfl

lemma unitsOfText_eq_drain (t : List Char) :
    unitsOfText t = (drainBuffer t).1 ++
      (if py_strip (drainBuffer t).2 = [] then [] else [py_strip (drainBuffer t).2]) := by
  generalize hn : t.length = n
  induction n using Nat.strong_induction_on generalizing t with
  | _ n ih =>
      cases hfe : findEnd t with
      | none =>
          rw [unitsOfText_none hfe, drainBuffer_none hfe]
          simp
      | some i =>
          have hi : i < t.length := findEnd_lt hfe
          rw [unitsOfText_some hfe, drainBuffer_some hfe]
          have ihx := ih (t.drop (i + 1)).length (by simp only [List.length_drop]; omega)
            (t.drop (i + 1)) rfl
          rw [ihx]
          by_cases hsent : py_strip (t.take (i + 1)) = [] <;> simp [hsent]

/-- Claim C6, amended: for every finite stream of text fragments, the unit
sequence `synthesize_stream` sends to synthesis is exactly the spec-side
segmentation of the concatenated text — cut at the earliest delimiter of the
fixed punctuation set, inclusive, stripping each unit and skipping
whitespace-only ones; a buffer holding no delimiter is never cut mid-stream
(the source has no length-threshold fallback); and on stream end the
stripped non-empty remainder is flushed as one final unit.  In particular
segmentation is invariant under how the text is chunked. -/
theorem synthesize_stream_segmentation (chunks : List (List Char)) :
    synthesize_stream_units chunks = unitsOfText chunks.flatten := by
  have h := foldl_stream_step chunks [] [] rfl
  simp only [synthesize_stream_units, h, List.nil_append]
  rw [unitsOfText_eq_drain]

/-- Claim C6, counterexample: a 50-code-point fragment with no delimiter.
The claim's fallback rule would force a cut at about 40 code points while
the stream is still running; the code cuts nothing mid-stream — zero units
are handed to synthesis before end of stream — and only the final flush
emits the whole 50-character buffer as one unit. -/
theorem no_length_fallback_cut :
    mid_stream_units [List.replicate 50 'a'] = [] ∧
    synthesize_stream_units [List.replicate 50 'a'] = [List.replicate 50 'a'] := by
  constructor <;> decide

/-- A JSON value in an incoming client message, as far as pydantic
validation distinguishes them: a string, JSON null, or anything else. -/
inductive JVal
  | str (v : String)
  | null
  | other
  deriving Repr, DecidableEq

/-- The raw JSON object delivered by `websocket.receive_json()`: the three
fields `ClientMessage` declares, each possibly absent. -/
structure RawMsg where
  type : Option JVal
  audio_data : Option JVal
  action : Option JVal
  deriving Repr, DecidableEq

/-- The validated `ClientMessage` pydantic model of `voice_router.py`:
`type: str`, `audio_data: str | None = None`, `action: str | None = None`. -/
structure ClientMessage where
  type : String
  audio_data : Option String
  action : Option String
  deriving Repr, DecidableEq

/-- Validation of one `str | None = None` field: absent or null becomes
`None`, a string passes, anything else is a validation error. -/
def validate_opt_str : Option JVal → Option (Option String)
  | none => some none
  | some (.str v) => some (some v)
  | some .null => some none
  | some .other => none

/-- `ClientMessage.model_validate`: `type` must be present and a string
(any string — the model does not restrict it to "audio"/"control");
`audio_data` and `action` must be strings, null, or absent. -/
def model_validate (m : RawMsg) : Option ClientMessage :=
  match m.type with
  | some (.str t) =>
    match validate_opt_str m.audio_data, validate_opt_str m.action with
    | some a, some act => some ⟨t, a, act⟩
    | _, _ => none
  | _ => none

/-- What one message-loop iteration of `voice_websocket` sends to the
client or schedules. -/
inductive Effect
  | error_event (msg : String)
  | status_event (status : String)
  | forward_audio (frame : List Nat)
  | cancel_receive_task
  | start_receive_task
  deriving Repr, DecidableEq

/-- The loop-local state of `voice_websocket` the claims are about
(`last_activity_time` feeds only the idle-timeout task, not message
handling, and is omitted). -/
structure GatewayState where
  is_listening : Bool
  receive_task_running : Bool
  interrupt_enabled : Bool
  client : DoubaoState
  deriving Repr, DecidableEq

/-- The oracles one loop iteration may consume: the `base64.b64decode`
result (`none` models a raised decoding error, caught by the source),
the audio send outcome, and the transport environments of the
`connect` / `finish_session` / `start_session` calls the control branches
can make. -/
structure GatewayEnv where
  b64_result : Option (List Nat)
  audio_send : TransportStep Unit
  connect_env : ConnectEnv
  start_env : StartSessionEnv
  finish_send : TransportStep Unit
  finish_inbound : List RecvOutcome
  deriving Repr, DecidableEq

/-- Shared tail of the control-start path: run `start_session`; an exception
escapes to the outer handler, which sends one internal-error event and the
connection tears down (third component `false`). -/
def do_start_session (env : GatewayEnv) (st : GatewayState) (efs0 : List Effect) :
    List Effect × GatewayState × Bool :=
  let r := start_session st.client env.start_env
  let st2 : GatewayState := { st with client := r.2 }
  match r.1 with
  | .raised => (efs0 ++ [.error_event "服务器内部错误"], st2, false)
  | .ret none => (efs0 ++ [.error_event "启动豆包会话失败"], st2, true)
  | .ret (some _) =>
    (efs0 ++ [.status_event "listening", .start_receive_task],
      { st2 with is_listening := true, receive_task_running := true }, true)

/-- Control-start: finish a leftover session (waiting for the ack) before
starting the new one; an exception from the unprotected send escapes to the
outer handler. -/
def finish_and_start (env : GatewayEnv) (st : GatewayState) (efs0 : List Effect) :
    List Effect × GatewayState × Bool :=
  match st.client.session_id with
  | some _ =>
    let f := finish_session st.client true env.finish_send env.finish_inbound
    match f.1 with
    | .raised => (efs0 ++ [.error_event "服务器内部错误"], { st with client := f.2 }, false)
    | .ret _ => do_start_session env { st with client := f.2 } efs0
  | none => do_start_session env st efs0

/-- Control-start: connect to the upstream if needed; a failed connect sends
one error event and the loop continues. -/
def connect_and_start (env : GatewayEnv) (st : GatewayState) (efs0 : List Effect) :
    List Effect × GatewayState × Bool :=
  if is_connected st.client = false then
    let c := connect st.client env.connect_env
    let st2 : GatewayState := { st with client := c.2 }
    if c.1 = false then (efs0 ++ [.error_event "连接豆包服务失败"], st2, true)
    else finish_and_start env st2 efs0
  else finish_and_start env st efs0

/-- The `action == "start"` branch of the message loop: reuse a running
session when there is one, otherwise cancel a stale receive task, connect,
finish any leftover session and start a new one. -/
def control_start (env : GatewayEnv) (st : GatewayState) :
    List Effect × GatewayState × Bool :=
  if is_connected st.client = true ∧ st.client.session_id ≠ none then
    if st.receive_task_running = false then
      ([.status_event "listening", .start_receive_task],
        { st with is_listening := true, receive_task_running := true }, true)
    else
      ([.status_event "listening"], { st with is_listening := true }, true)
  else
    let efs0 : List Effect :=
      if st.receive_task_running = true then [.cancel_receive_task] else []
    connect_and_start env { st with receive_task_running := false } efs0

/-- Tail of the interrupt branch: restart the session; on failure send one
error event and stop listening; an exception escapes to the outer handler. -/
def interrupt_start (env : GatewayEnv) (st : GatewayState) (efs0 : List Effect) :
    List Effect × GatewayState × Bool :=
  let r := start_session st.client env.start_env
  let st2 : GatewayState := { st with client := r.2 }
  match r.1 with
  | .raised => (efs0 ++ [.error_event "服务器内部错误"], st2, false)
  | .ret (some _) =>
    (efs0 ++ [.status_event "listening", .start_receive_task],
      { st2 with is_listening := true, receive_task_running := true }, true)
  | .ret none =>
    (efs0 ++ [.error_event "重新启动会话失败"], { st2 with is_listening := false }, true)

/-- The `action == "interrupt"` branch: when interrupts are enabled, cancel
the receive task, finish the current session (waiting for the ack) and
restart it. -/
def control_interrupt (env : GatewayEnv) (st : GatewayState) :
    List Effect × GatewayState × Bool :=
  if st.interrupt_enabled = true then
    let efs0 : List Effect :=
      if st.receive_task_running = true then [.cancel_receive_task] else []
    let st1 : GatewayState := { st with receive_task_running := false }
    match st1.client.session_id with
    | some _ =>
      let f := finish_session st1.client true env.finish_send env.finish_inbound
      match f.1 with
      | .raised => (efs0 ++ [.error_event "服务器内部错误"], { st1 with client := f.2 }, false)
      | .ret _ => interrupt_start env { st1 with client := f.2 } efs0
    | none => interrupt_start env st1 efs0
  else ([], st, true)

/-- One iteration of the `while True` message loop of `voice_websocket`
(lines 417-510): validate the raw message (a validation error sends exactly
one error event and continues), then dispatch on `message.type` — "audio"
forwards decoded audio upstream with all decode/send failures swallowed,
"control" dispatches on the action, and any other type string matches no
branch and is silently ignored.  Third component: the loop keeps running. -/
def handle_client_message (env : GatewayEnv) (st : GatewayState) (raw : RawMsg) :
    List Effect × GatewayState × Bool :=
  match model_validate raw with
  | none => ([.error_event "无效的消息格式"], st, true)
  | some msg =>
    if msg.type = "audio" then
      match msg.audio_data with
      | some b64 =>
        if b64 ≠ "" ∧ is_connected st.client = true ∧ st.client.session_id ≠ none then
          match env.b64_result with
          | none => ([], st, true)
          | some pcm =>
            match env.audio_send with
            | .exn => ([], st, true)
            | .ok _ =>
              match (send_audio st.client pcm).1 with
              | some frame => ([.forward_audio frame], st, true)
              | none => ([], st, true)
        else ([], st, true)
      | none => ([], st, true)
    else if msg.type = "control" then
      if msg.action = some "start" then control_start env st
      else if msg.action = some "stop" then ([], { st with is_listening := false }, true)
      else if msg.action = some "interrupt" then control_interrupt env st
      else ([], st, true)
    else ([], st, true)

/-- Claim C7, amended: `{"type": "bogus"}` passes pydantic validation (the
model's `type` field is an unrestricted string) and then matches neither the
"audio" nor the "control" branch, so the gateway sends NO event at all — not
one error event — while the connection stays open with the loop state
unchanged; consequently subsequent messages are processed exactly as if the
bogus message had never been sent.  A message that fails validation (e.g. a
missing or non-string `type`) does yield exactly one error event with the
connection staying open. -/
theorem bogus_message_ignored (env env2 : GatewayEnv) (st : GatewayState) (raw2 : RawMsg) :
    handle_client_message env st ⟨some (.str "bogus"), none, none⟩ = ([], st, true) ∧
    (∀ raw, model_validate raw = none →
        handle_client_message env st raw = ([.error_event "无效的消息格式"], st, true)) ∧
    handle_client_message env2
        (handle_client_message env st ⟨some (.str "bogus"), none, none⟩).2.1 raw2
      = handle_client_message env2 st raw2 := by
  have h1 : handle_client_message env st ⟨some (.str "bogus"), none, none⟩ = ([], st, true) := by
    simp [handle_client_message, model_validate, validate_opt_str]
  refine ⟨h1, ?_, by rw [h1]⟩
  intro raw hval
  simp [handle_client_message, hval]

/-- Claim C7, counterexample: on a concrete connected, in-session gateway
state, the malformed message `{"type": "bogus"}` produces an empty event
list — zero error events, not exactly one — and the loop continues with the
state unchanged. -/
theorem bogus_message_counterexample :
    handle_client_message
        ⟨some [], .ok (), ⟨.ok (), .ok (), .ok []⟩, ⟨[1], .ok (), .ok []⟩, .ok (), []⟩
        ⟨true, true, true, ⟨true, true, some [9]⟩⟩
        ⟨some (.str "bogus"), none, none⟩
      = ([], ⟨true, true, true, ⟨true, true, some [9]⟩⟩, true) := by
  decide

/-- Witness for `bogus_message_ignored` at a concrete state, exercising the
validation-error conjunct on a message whose `type` is a number. -/
theorem bogus_message_ignored_witness :
    handle_client_message
        ⟨none, .exn, ⟨.exn, .exn, .exn⟩, ⟨[], .exn, .exn⟩, .exn, []⟩
        ⟨false, false, true, ⟨false, false, none⟩⟩
        ⟨some JVal.other, none, none⟩
      = ([Effect.error_event "无效的消息格式"],
          ⟨false, false, true, ⟨false, false, none⟩⟩, true) :=
  (bogus_message_ignored
      ⟨none, .exn, ⟨.exn, .exn, .exn⟩, ⟨[], .exn, .exn⟩, .exn, []⟩
      ⟨none, .exn, ⟨.exn, .exn, .exn⟩, ⟨[], .exn, .exn⟩, .exn, []⟩
      ⟨false, false, true, ⟨false, false, none⟩⟩
      ⟨none, none, none⟩).2.1
    ⟨some JVal.other, none, none⟩ rfl

/-- How `voice_websocket` disposes of an incoming connection before the
message loop starts (lines 187-217). -/
inductive EstablishOutcome
  | rejected (close_code : Nat)
  | closed_after_error (close_code : Nat)
  | proceed
  deriving Repr, DecidableEq

/-- Connection establishment of `voice_websocket`: token validation
(`none` = invalid token; the inner option is the `sub` claim), agent lookup,
`websocket.accept()`, then the Doubao credential check.  The first three
failures close with code 1008 (policy violation) before accepting; missing
credentials are detected only after accepting and close with
`websocket.close()`'s default code 1000 after sending one error event.
Only `proceed` reaches client creation and the message loop, so in every
failure outcome no upstream session is started and no client message is
processed. -/
def establish (token_payload : Option (Option String)) (agent_exists : Bool)
    (doubao_app_id doubao_access_key : String) : EstablishOutcome :=
  match token_payload with
  | none => .rejected 1008
  | some sub =>
    if sub = none ∨ sub = some "" then .rejected 1008
    else if agent_exists = false then .rejected 1008
    else if doubao_app_id = "" ∨ doubao_access_key = "" then .closed_after_error 1000
    else .proceed

/-- Claim C8, amended: a failed authentication (invalid token, or a token
without a user id) and an unknown agent close the connection with the
policy-violation code 1008 before it is accepted; absent upstream
credentials, however, are detected only after the connection is accepted and
close it with the default close code 1000 (after one error event), not with
the policy-violation code; in all of these outcomes no session is created
and no client message is processed (`proceed` is never reached). -/
theorem establishment_rejection (tp : Option (Option String)) (ag : Bool) (app key : String) :
    ((tp = none ∨ tp = some none ∨ tp = some (some "") ∨ ag = false) →
        establish tp ag app key = .rejected 1008) ∧
    (∀ u, tp = some (some u) → u ≠ "" → ag = true → (app = "" ∨ key = "") →
        establish tp ag app key = .closed_after_error 1000) ∧
    (establish tp ag app key = .proceed →
        ag = true ∧ app ≠ "" ∧ key ≠ "" ∧ ∃ u, tp = some (some u) ∧ u ≠ "") := by
  refine ⟨?_, ?_, ?_⟩
  · intro h
    rcases h with h | h | h | h
    · simp [establish, h]
    · simp [establish, h]
    · simp [establish, h]
    · subst h
      cases tp with
      | none => simp [establish]
      | some sub =>
          by_cases hsub : sub = none ∨ sub = some "" <;> simp [establish, hsub]
  · intro u hu hne hag hcred
    subst hu
    have hsub : ¬ ((some u : Option String) = none ∨ (some u : Option String) = some "") := by
      simp [hne]
    simp [establish, hsub, hag, hcred, hne]
  · intro hp
    cases tp with
    | none => simp [establish] at hp
    | some sub =>
        by_cases h1 : sub = none ∨ sub = some ""
        · simp [establish, h1] at hp
        · by_cases h2 : ag = false
          · simp [establish, h1, h2] at hp
          · by_cases h3 : app = "" ∨ key = ""
            · simp [establish, h1, h2, h3] at hp
            · push_neg at h1 h3
              refine ⟨by revert h2; cases ag <;> simp, h3.1, h3.2, ?_⟩
              cases sub with
              | none => exact absurd rfl h1.1
              | some u => exact ⟨u, rfl, fun he => h1.2 (by rw [he])⟩

/-- Claim C8, counterexample: with a valid token and an existing agent but
an empty Doubao app id, the connection is accepted and then closed with the
default close code 1000, not the policy-violation code 1008 the claim
demands for absent upstream credentials. -/
theorem creds_missing_close_code :
    establish (some (some "1")) true "" "key" = EstablishOutcome.closed_after_error 1000 ∧
    EstablishOutcome.closed_after_error 1000 ≠ EstablishOutcome.rejected 1008 := by
  constructor <;> decide

/-- Witness for `establishment_rejection` at concrete inputs: an invalid
token is rejected with 1008, and missing credentials close with 1000. -/
theorem establishment_rejection_witness :
    establish none true "app" "key" = EstablishOutcome.rejected 1008 ∧
    establish (some (some "7")) true "" "key" = EstablishOutcome.closed_after_error 1000 :=
  ⟨(establishment_rejection none true "app" "key").1 (Or.inl rfl),
    (establishment_rejection (some (some "7")) true "" "key").2.1 "7" rfl
      (by decide) rfl (Or.inl rfl)⟩

/-- The mutable state of `InterruptHandler` (`interrupt_handler.py`):
the config flag, the playing flag, the pending TTS tasks (each represented
by its `done()` flag) and whether `_interrupt_event` is set. -/
structure InterruptState where
  enabled : Bool
  is_tts_playing : Bool
  pending_tasks : List Bool
  interrupt_event_set : Bool
  deriving Repr, DecidableEq

/-- `InterruptHandler.handle_interrupt`: returns `False` and touches nothing
when TTS is not playing; otherwise sets the interrupt event, cancels every
pending task that is not yet done (third component: the cancelled tasks),
clears the pending list, clears the playing flag and returns `True`. -/
def handle_interrupt (st : InterruptState) : Bool × InterruptState × List Bool :=
  if st.is_tts_playing = false then (false, st, [])
  else
    (true,
      { st with interrupt_event_set := true, pending_tasks := [], is_tts_playing := false },
      st.pending_tasks.filter (fun d => d = false))

/-- Claim C9: interrupt handling is idempotent — with TTS not playing,
`handle_interrupt` reports `False` and leaves every piece of handler state
(playing flag, pending task list, interrupt event) unchanged and cancels no
task; and two consecutive invocations leave the same handler state as one. -/
theorem interrupt_idempotent (st : InterruptState) :
    (st.is_tts_playing = false → handle_interrupt st = (false, st, [])) ∧
    (handle_interrupt (handle_interrupt st).2.1).2.1 = (handle_interrupt st).2.1 := by
  constructor
  · intro h
    rw [handle_interrupt, if_pos h]
  · by_cases h : st.is_tts_playing = false <;> simp [handle_interrupt, h]

/-- Witness for `interrupt_idempotent`: the no-op case on a concrete idle
state and idempotence on a concrete playing state. -/
theorem interrupt_idempotent_witness :
    handle_interrupt ⟨true, false, [true], false⟩ = (false, ⟨true, false, [true], false⟩, []) ∧
    (handle_interrupt (handle_interrupt ⟨true, true, [false], false⟩).2.1).2.1
      = (handle_interrupt ⟨true, true, [false], false⟩).2.1 :=
  ⟨(interrupt_idempotent ⟨true, false, [true], false⟩).1 rfl,
    (interrupt_idempotent ⟨true, true, [false], false⟩).2⟩

end YuxiVoice
